import Mathlib

/-!
Verification of the core logic of the `inozbanana` Telegram image-editing
relay (src/app.py): the image normalizer `_ensure_image_and_mime`, the
session store `_set_last_photo` / `_pop_last_photo` / `_has_fresh_photo`,
and the four-rung Gemini fallback ladder `gemini_edit`, together with the
error surfacing at the `on_text` handler boundary.

Shallow-embedding conventions:
  * byte strings are `List Nat` (byte values);
  * the PIL library is modelled by `PILImage` (the observable attributes
    `format`, `mode`, `size` and the presence of a palette/key
    `transparency` entry in `info`), with `pilConvertRGB` and
    `pilSavePNGReload` embedding the documented behaviour of
    `Image.convert("RGB")` and of saving to PNG and decoding the result;
  * the remote HTTP API is a function from request index to outcome
    (success JSON, an HTTP status error as raised by
    `raise_for_status`, or a timeout/network error, which `httpx`
    raises as an exception that is not an `HTTPStatusError`);
  * Python exceptions escaping a function become `Except` errors.
-/

deriving instance DecidableEq for Except

namespace Banana

/-- Model of a PIL `Image` as produced by `Image.open`: its detected
`format` (PIL uses canonical upper-case names such as "JPEG", "PNG",
"GIF", "WEBP"; decoded-from-bytes images always carry one), its pixel
`mode`, pixel dimensions, and whether `info` carries a palette/key
`transparency` entry (as for transparent GIFs or keyed PNGs). -/
structure PILImage where
  format : String
  mode : String
  width : Nat
  height : Nat
  transparencyInfo : Bool
  deriving DecidableEq, Repr

/-- A byte string as seen through `Image.open`: either bytes PIL cannot
parse (raising `UnidentifiedImageError`), or bytes that decode to a
given `PILImage`. -/
inductive ImageBytes where
  | badBytes (raw : List Nat)
  | goodBytes (raw : List Nat) (im : PILImage)
  deriving DecidableEq, Repr

/-- The underlying raw bytes. -/
def ImageBytes.raw : ImageBytes → List Nat
  | .badBytes raw => raw
  | .goodBytes raw _ => raw

/-- The decode failure of `Image.open` (`PIL.UnidentifiedImageError`);
the spec calls it DecodeError. -/
inductive DecodeError where
  | unidentifiedImage
  deriving DecidableEq, Repr

/-- `im.convert("RGB")`: same dimensions, mode "RGB", alpha and
transparency info dropped; the converted in-memory image has no
`format`. -/
def pilConvertRGB (im : PILImage) : PILImage :=
  { format := "", mode := "RGB", width := im.width, height := im.height,
    transparencyInfo := false }

/-- Saving `im` to PNG and decoding the produced bytes: PNG supports the
only modes this program saves (RGB, RGBA, LA) losslessly, so the decoded
image keeps the mode and dimensions, with format "PNG" and no leftover
`transparency` info entry. -/
def pilSavePNGReload (im : PILImage) : PILImage :=
  { format := "PNG", mode := im.mode, width := im.width,
    height := im.height, transparencyInfo := false }

/-- Stand-in for the byte output of the PNG encoder (`buf.getvalue()`):
the PNG signature followed by a serialization of the image content. The
actual byte values are irrelevant to the claims; what matters is that
these bytes decode back to `pilSavePNGReload`'s result. -/
def pngBytes (im : PILImage) : List Nat :=
  137 :: 80 :: 78 :: 71 :: im.width :: im.height :: im.mode.toList.map Char.toNat

/-- Python's `str.upper()` (the strings it is applied to here are the
ASCII format names PIL produces). -/
def pyUpper (s : String) : String :=
  String.mk (s.toList.map Char.toUpper)

/-- `_ensure_image_and_mime` (src/app.py lines 27-38): decode the bytes,
pass JPEG/PNG through unchanged with the matching mime type, otherwise
re-encode to PNG, keeping the image as-is when its mode is RGBA or LA
and converting to RGB otherwise. -/
def ensure_image_and_mime : ImageBytes → Except DecodeError (ImageBytes × String)
  | .badBytes _ => .error .unidentifiedImage
  | .goodBytes raw im =>
    let fmt := pyUpper im.format
    if fmt = "JPEG" ∨ fmt = "JPG" then
      .ok (.goodBytes raw im, "image/jpeg")
    else if fmt = "PNG" then
      .ok (.goodBytes raw im, "image/png")
    else
      let im2 := if im.mode = "RGBA" ∨ im.mode = "LA" then im else pilConvertRGB im
      let im3 := pilSavePNGReload im2
      .ok (.goodBytes (pngBytes im3) im3, "image/png")

/-- Whether a PNG of this mode carries an alpha channel (of the modes
this program can save, RGBA and LA do; RGB does not). -/
def pngModeHasAlpha (m : String) : Bool :=
  m = "RGBA" || m = "LA"

/-- Spec-side notion for C7: the source image "had an alpha/transparency
channel". Per PIL, the modes with an alpha channel are RGBA, LA, PA,
RGBa and La, and any mode may additionally carry palette/key
transparency through `info["transparency"]` (e.g. transparent GIFs). -/
def sourceHasTransparency (im : PILImage) : Bool :=
  im.mode = "RGBA" || im.mode = "LA" || im.mode = "PA" ||
  im.mode = "RGBa" || im.mode = "La" || im.transparencyInfo

/-! ### base64 (`base64.b64encode` / `base64.b64decode`) -/

/-- The standard base64 alphabet. -/
def b64alphabetList : List Char :=
  "ABCDEFGHIJKLMNOPQRSTUVWXYZabcdefghijklmnopqrstuvwxyz0123456789+/".toList

/-- Character for a 6-bit value. -/
def b64c (n : Nat) : Char :=
  b64alphabetList.getD n 'A'

/-- Encode bytes in groups of three, padding with `=`. -/
def b64encodeList : List Nat → List Char
  | a :: b :: c :: rest =>
      b64c (a / 4) :: b64c (a % 4 * 16 + b / 16) ::
      b64c (b % 16 * 4 + c / 64) :: b64c (c % 64) :: b64encodeList rest
  | [a, b] => [b64c (a / 4), b64c (a % 4 * 16 + b / 16), b64c (b % 16 * 4), '=']
  | [a] => [b64c (a / 4), b64c (a % 4 * 16), '=', '=']
  | [] => []

/-- `base64.b64encode(bytes).decode()`. -/
def b64encode (bs : List Nat) : String :=
  String.mk (b64encodeList bs)

/-- 6-bit value of an alphabet character, `none` for characters outside
the alphabet (which Python's default lenient decoder discards, as it
does the `=` padding). -/
def b64value (ch : Char) : Option Nat :=
  List.findIdx? (fun c => c = ch) b64alphabetList

/-- Regroup 6-bit values into bytes. -/
def b64decodeVals : List Nat → List Nat
  | a :: b :: c :: d :: rest =>
      (a * 4 + b / 16) :: (b % 16 * 16 + c / 4) :: (c % 4 * 64 + d) :: b64decodeVals rest
  | [a, b, c] => [a * 4 + b / 16, b % 16 * 16 + c / 4]
  | [a, b] => [a * 4 + b / 16]
  | _ => []

/-- `base64.b64decode(s)`. -/
def b64decode (s : String) : List Nat :=
  b64decodeVals (s.toList.filterMap b64value)

/-! ### Session store (src/app.py lines 161-179) -/

/-- `TTL_SECONDS = 10 * 60`. -/
def TTL_SECONDS : Int := 10 * 60

/-- The `LAST_PHOTO` dict: user id to (image bytes, integer unix
timestamp). Modelled as its lookup function; `Int` matches Python's
unbounded integers for both ids and timestamps. -/
def Store := Int → Option (List Nat × Int)

/-- The empty dict. -/
def emptyStore : Store := fun _ => none

/-- `del LAST_PHOTO[user_id]`. -/
def storeDel (s : Store) (uid : Int) : Store :=
  fun k => if k = uid then none else s k

/-- `_set_last_photo`: overwrite the entry, stamping the current time. -/
def set_last_photo (s : Store) (uid : Int) (img : List Nat) (now : Int) : Store :=
  fun k => if k = uid then some (img, now) else s k

/-- `_pop_last_photo`: absent entries give `None`; stale entries (age
strictly greater than `TTL_SECONDS`) are deleted and give `None`; fresh
entries are deleted and returned. Returns the result together with the
updated store. -/
def pop_last_photo (s : Store) (uid : Int) (now : Int) : Option (List Nat) × Store :=
  match s uid with
  | none => (none, s)
  | some (img, ts) =>
    if now - ts > TTL_SECONDS then (none, storeDel s uid)
    else (some img, storeDel s uid)

/-- `_has_fresh_photo`: read-only freshness check. -/
def has_fresh_photo (s : Store) (uid : Int) (now : Int) : Bool :=
  match s uid with
  | none => false
  | some (_, ts) => decide (now - ts ≤ TTL_SECONDS)

/-! ### Request and response shapes (src/app.py lines 20-24, 40-67) -/

/-- `PRIMARY_MODEL = "gemini-2.5-flash-image"`. -/
def PRIMARY_MODEL : String := "gemini-2.5-flash-image"

/-- `FALLBACK_MODEL = "gemini-2.0-flash-exp"`. -/
def FALLBACK_MODEL : String := "gemini-2.0-flash-exp"

/-- The `inline_data` JSON object. -/
structure InlineData where
  mime_type : String
  data : String
  deriving DecidableEq, Repr

/-- One element of a `parts` array: a text part or an inline-data part. -/
structure JPart where
  text : Option String
  inline_data : Option InlineData
  deriving DecidableEq, Repr

/-- One element of the `contents` array: optional `role` plus `parts`. -/
structure JContent where
  role : Option String
  parts : List JPart
  deriving DecidableEq, Repr

/-- The `generationConfig` object used by this program. -/
structure GenerationConfig where
  responseMimeType : String
  deriving DecidableEq, Repr

/-- A request body as built by `gemini_edit`. -/
structure Payload where
  contents : List JContent
  generationConfig : Option GenerationConfig
  responseModalities : Option (List String)
  deriving DecidableEq, Repr

/-- The fixed system-style directive prepended to the instruction
(src/app.py lines 44-49, identical at lines 59-64). -/
def editDirective (prompt : String) : String :=
  "Отредактируй изображение строго по инструкции. " ++
  "Сохрани стиль исходного текста (шрифт, размер, цвет, выравнивание, трекинг). " ++
  "Не изменяй остальные области изображения. " ++
  "Инструкция: " ++ prompt

/-- `_parts`: content without a role tag. -/
def parts (prompt mime b64data : String) : List JContent :=
  [{ role := none,
     parts := [
       { text := some (editDirective prompt), inline_data := none },
       { text := none, inline_data := some { mime_type := mime, data := b64data } } ] }]

/-- `_parts_with_role`: the same content with `role = "user"`. -/
def parts_with_role (prompt mime b64data : String) : List JContent :=
  [{ role := some "user",
     parts := [
       { text := some (editDirective prompt), inline_data := none },
       { text := none, inline_data := some { mime_type := mime, data := b64data } } ] }]

/-- `payload1`: no role, `generationConfig.responseMimeType = "image/png"`. -/
def payload1 (prompt mime b64 : String) : Payload :=
  { contents := parts prompt mime b64,
    generationConfig := some { responseMimeType := "image/png" },
    responseModalities := none }

/-- `payload2`: `role = "user"`, same `generationConfig`. -/
def payload2 (prompt mime b64 : String) : Payload :=
  { contents := parts_with_role prompt mime b64,
    generationConfig := some { responseMimeType := "image/png" },
    responseModalities := none }

/-- `payload3`: `role = "user"`, no `generationConfig`,
`responseModalities = ["IMAGE"]`. -/
def payload3 (prompt mime b64 : String) : Payload :=
  { contents := parts_with_role prompt mime b64,
    generationConfig := none,
    responseModalities := some ["IMAGE"] }

/-- A response candidate: `{ "content": { "parts": [...] } }`. -/
structure JCandidate where
  content : JContent
  deriving DecidableEq, Repr

/-- A success response body: `{ "candidates": [...] }`. -/
structure ApiResponse where
  candidates : List JCandidate
  deriving DecidableEq, Repr

/-- The extraction expression
`data["candidates"][0]["content"]["parts"][0]["inline_data"]["data"]`:
`some` when every indexing step succeeds, `none` when any raises a
`KeyError`/`IndexError` (empty `candidates`, empty `parts`, or a first
part without `inline_data`). -/
def extractImage (r : ApiResponse) : Option String :=
  match r.candidates with
  | [] => none
  | cand :: _ =>
    match cand.content.parts with
    | [] => none
    | p :: _ =>
      match p.inline_data with
      | none => none
      | some d => some d.data

/-- Outcome of one `_post_model` call: a parsed JSON success body; an
`httpx.HTTPStatusError` with the response's status code and text, as
raised by `raise_for_status`; or a timeout/network failure, which httpx
raises as an exception that is not an `HTTPStatusError`. -/
inductive ApiOutcome where
  | ok (r : ApiResponse)
  | httpError (status : Nat) (body : String)
  | netError (e : String)
  deriving DecidableEq, Repr

/-- An exception escaping `gemini_edit`. -/
inductive EditError where
  /-- `UnidentifiedImageError` from `Image.open` in `_ensure_image_and_mime`. -/
  | decodeError
  /-- a re-raised `httpx.HTTPStatusError` (status, body). -/
  | httpStatusError (status : Nat) (body : String)
  /-- a propagated timeout/network exception. -/
  | networkError (e : String)
  /-- a `KeyError`/`IndexError` from the inline-data extraction. -/
  | extractError
  /-- the `RuntimeError` raised when the ladder's final rung fails with
  an HTTP status error. -/
  | generationError (msg : String)
  deriving DecidableEq, Repr

/-- How one of the first three `try` blocks ends: a final result, or
fall-through to the next variant (only on HTTP status exactly 400). -/
inductive StepResult where
  | done (r : Except EditError (List Nat))
  | next400
  deriving DecidableEq, Repr

/-- One of the first three attempts (src/app.py lines 98-130): on a
success body, extract and base64-decode the inline image, an extraction
failure propagating uncaught; on an `HTTPStatusError`, continue exactly
when the status is 400, re-raise otherwise; other exceptions propagate. -/
def attemptStep : ApiOutcome → StepResult
  | .ok r =>
    match extractImage r with
    | some s => .done (.ok (b64decode s))
    | none => .done (.error .extractError)
  | .httpError status body =>
    if status = 400 then .next400 else .done (.error (.httpStatusError status body))
  | .netError e => .done (.error (.networkError e))

/-- Python's string slice `s[:n]`: the first n characters (code
points). -/
def strTake (s : String) (n : Nat) : String :=
  String.mk (s.toList.take n)

/-- `e4.response.text[:400] or 'Bad Request'` — the diagnostic embedded
in the final `RuntimeError`. -/
def gemini400Diag (body : String) : String :=
  if strTake body 400 = "" then "Bad Request" else strTake body 400

/-- The message of the final `RuntimeError`:
`f"Gemini 400: {body or 'Bad Request'}"`. -/
def gemini400Msg (body : String) : String :=
  "Gemini 400: " ++ gemini400Diag body

/-- The fourth attempt (src/app.py lines 132-144): like the others on
success responses and on timeout/network failures, but every
`HTTPStatusError` — whatever its status — is converted into the
`RuntimeError` carrying the truncated body. -/
def finalStep : ApiOutcome → Except EditError (List Nat)
  | .ok r =>
    match extractImage r with
    | some s => .ok (b64decode s)
    | none => .error .extractError
  | .httpError _ body => .error (.generationError (gemini400Msg body))
  | .netError e => .error (.networkError e)

/-- A performed request: target model and JSON body. -/
structure RequestRec where
  model : String
  payload : Payload
  deriving DecidableEq, Repr

/-- The ladder of `gemini_edit` after normalization (src/app.py lines
93-144), with `api i` the outcome of the i-th HTTP call. Returns the
result together with the ordered list of requests performed. -/
def geminiEditCore (api : Nat → ApiOutcome) (prompt mime1 b64_1 : String) :
    Except EditError (List Nat) × List RequestRec :=
  let p1 := payload1 prompt mime1 b64_1
  let p2 := payload2 prompt mime1 b64_1
  let p3 := payload3 prompt mime1 b64_1
  match attemptStep (api 0) with
  | .done r => (r, [{ model := PRIMARY_MODEL, payload := p1 }])
  | .next400 =>
    match attemptStep (api 1) with
    | .done r => (r, [{ model := PRIMARY_MODEL, payload := p1 },
                      { model := PRIMARY_MODEL, payload := p2 }])
    | .next400 =>
      match attemptStep (api 2) with
      | .done r => (r, [{ model := PRIMARY_MODEL, payload := p1 },
                        { model := PRIMARY_MODEL, payload := p2 },
                        { model := PRIMARY_MODEL, payload := p3 }])
      | .next400 =>
        (finalStep (api 3), [{ model := PRIMARY_MODEL, payload := p1 },
                             { model := PRIMARY_MODEL, payload := p2 },
                             { model := PRIMARY_MODEL, payload := p3 },
                             { model := FALLBACK_MODEL, payload := p1 }])

/-- `gemini_edit` (src/app.py lines 82-144): normalize once — a decode
failure propagates before any request is made — base64-encode the
normalized bytes once, then run the ladder. -/
def geminiEdit (api : Nat → ApiOutcome) (prompt : String) (input : ImageBytes) :
    Except EditError (List Nat) × List RequestRec :=
  match ensure_image_and_mime input with
  | .error _ => (.error .decodeError, [])
  | .ok (img1, mime1) => geminiEditCore api prompt mime1 (b64encode img1.raw)

/-- The inline-data objects of one content element. -/
def contentInlines (c : JContent) : List InlineData :=
  c.parts.filterMap JPart.inline_data

/-- What the `on_text` handler does after the edit attempt (src/app.py
lines 230-237): reply with the produced photo, or edit the status
message to a user-visible error text. -/
inductive HandlerOutcome where
  | photoReply (img : List Nat)
  | errorMessage (msg : String)
  deriving DecidableEq, Repr

/-- Model of Python `str(e)` for each exception class. Only the
`generationError` text is fixed by this program; the others stand for
the library-provided messages. -/
def editErrorText : EditError → String
  | .decodeError => "cannot identify image file"
  | .httpStatusError status body => "HTTP " ++ toString status ++ ": " ++ body
  | .networkError e => e
  | .extractError => "KeyError: inline_data"
  | .generationError m => m

/-- The `try/except` around `gemini_edit` in `on_text` (src/app.py lines
231-237): any exception is caught and surfaced as
`f"Ошибка: {e}"` via `msg.edit_text`. -/
def handleEditResult : Except EditError (List Nat) → HandlerOutcome
  | .ok out => .photoReply out
  | .error e => .errorMessage ("Ошибка: " ++ editErrorText e)

/-! ### Helper lemmas -/

/-- Normalization never fails on decodable input: every branch of
`ensure_image_and_mime` on `goodBytes` returns `ok`. -/
theorem ensure_goodBytes_ok (raw : List Nat) (im : PILImage) :
    ∃ out mime, ensure_image_and_mime (.goodBytes raw im) = .ok (out, mime) := by
  simp only [ensure_image_and_mime]
  split_ifs <;> exact ⟨_, _, rfl⟩

/-! ### Session store claims -/

/-- Claim C5: for every owner and byte payload, `put` followed
immediately by `takeIfFresh` for the same owner returns exactly the
stored bytes, and a second immediate `takeIfFresh` for the same owner
returns no value — the entry is removed on consumption. -/
theorem C5_put_take_once (s : Store) (uid : Int) (img : List Nat) (t : Int) :
    (pop_last_photo (set_last_photo s uid img t) uid t).1 = some img ∧
    (pop_last_photo (pop_last_photo (set_last_photo s uid img t) uid t).2 uid t).1 = none := by
  constructor
  · simp [pop_last_photo, set_last_photo, TTL_SECONDS]
  · simp [pop_last_photo, set_last_photo, storeDel, TTL_SECONDS]

/-- Claim C6: `takeIfFresh` on an entry older than the 10-minute window
returns no value and removes the stale entry, even though the preceding
`put` succeeded; an entry whose age is at most the window is returned
as fresh. -/
theorem C6_staleness (s : Store) (uid : Int) (img : List Nat) (t tNow : Int) :
    (tNow - t > TTL_SECONDS →
      (pop_last_photo (set_last_photo s uid img t) uid tNow).1 = none ∧
      (pop_last_photo (set_last_photo s uid img t) uid tNow).2 uid = none) ∧
    (tNow - t ≤ TTL_SECONDS →
      (pop_last_photo (set_last_photo s uid img t) uid tNow).1 = some img) := by
  constructor
  · intro h
    constructor
    · simp [pop_last_photo, set_last_photo, h]
    · simp [pop_last_photo, set_last_photo, storeDel, h]
  · intro h
    have hc : ¬ tNow - t > TTL_SECONDS := not_lt.mpr h
    simp [pop_last_photo, set_last_photo, hc]

/-- Witness for C6 at a concrete store, owner, and pair of times on
each side of the window. -/
theorem C6_staleness_witness :
    ((pop_last_photo (set_last_photo emptyStore 1 [7] 0) 1 601).1 = none ∧
     (pop_last_photo (set_last_photo emptyStore 1 [7] 0) 1 601).2 1 = none) ∧
    (pop_last_photo (set_last_photo emptyStore 1 [7] 0) 1 600).1 = some [7] :=
  ⟨(C6_staleness emptyStore 1 [7] 0 601).1 (by decide),
   (C6_staleness emptyStore 1 [7] 0 600).2 (by decide)⟩

/-! ### Normalizer claims -/

/-- Claim C8: input whose decoded format is JPEG or PNG passes through
unchanged, paired with the matching mime type. (The transport-claimed
content type is ignored by construction: `_ensure_image_and_mime` is a
function of the bytes alone.) -/
theorem C8_passthrough (raw : List Nat) (im : PILImage) :
    (im.format = "JPEG" →
      ensure_image_and_mime (.goodBytes raw im) = .ok (.goodBytes raw im, "image/jpeg")) ∧
    (im.format = "PNG" →
      ensure_image_and_mime (.goodBytes raw im) = .ok (.goodBytes raw im, "image/png")) := by
  constructor
  · intro h
    simp only [ensure_image_and_mime, h]
    rw [if_pos (by decide)]
  · intro h
    simp only [ensure_image_and_mime, h]
    rw [if_neg (by decide), if_pos (by decide)]

/-- Witness for C8 on a concrete JPEG input and a concrete PNG input. -/
theorem C8_passthrough_witness :
    ensure_image_and_mime
        (.goodBytes [255, 216]
          { format := "JPEG", mode := "RGB", width := 4, height := 3, transparencyInfo := false }) =
      .ok (.goodBytes [255, 216]
          { format := "JPEG", mode := "RGB", width := 4, height := 3, transparencyInfo := false },
        "image/jpeg") ∧
    ensure_image_and_mime
        (.goodBytes [137, 80]
          { format := "PNG", mode := "RGBA", width := 4, height := 3, transparencyInfo := false }) =
      .ok (.goodBytes [137, 80]
          { format := "PNG", mode := "RGBA", width := 4, height := 3, transparencyInfo := false },
        "image/png") :=
  ⟨(C8_passthrough [255, 216]
      { format := "JPEG", mode := "RGB", width := 4, height := 3, transparencyInfo := false }).1 rfl,
   (C8_passthrough [137, 80]
      { format := "PNG", mode := "RGBA", width := 4, height := 3, transparencyInfo := false }).2 rfl⟩

/-- A transparent GIF as `Image.open` yields it: palette mode with a
`transparency` info entry. -/
def gifPKeyed : PILImage :=
  { format := "GIF", mode := "P", width := 3, height := 2, transparencyInfo := true }

/-- Counterexample to claim C7 as stated: a transparent palette GIF has
a transparency channel in the spec's sense, yet `_ensure_image_and_mime`
converts it through `convert("RGB")` and returns an alpha-free PNG, so
"the output has an alpha channel iff the source had an
alpha/transparency channel" fails. -/
theorem C7_cex_palette_transparency :
    sourceHasTransparency gifPKeyed = true ∧
    ensure_image_and_mime (.goodBytes [71, 73] gifPKeyed) =
      .ok (.goodBytes
            (pngBytes { format := "PNG", mode := "RGB", width := 3, height := 2,
                        transparencyInfo := false })
            { format := "PNG", mode := "RGB", width := 3, height := 2,
              transparencyInfo := false },
          "image/png") ∧
    pngModeHasAlpha "RGB" = false := by
  refine ⟨rfl, ?_, rfl⟩
  decide

/-- Claim C7 as amended: for decodable input whose format is neither
JPEG nor PNG, the normalizer returns PNG bytes with mime `image/png`
that decode to an image with the same pixel dimensions, and the output
has an alpha channel iff the source mode is RGBA or LA — other forms of
source transparency (palette/key transparency, PA and premultiplied
modes) are dropped by `convert("RGB")`. -/
theorem C7_amended_reencode (raw : List Nat) (im : PILImage)
    (h1 : pyUpper im.format ≠ "JPEG") (h2 : pyUpper im.format ≠ "JPG")
    (h3 : pyUpper im.format ≠ "PNG") :
    ∃ outRaw outIm,
      ensure_image_and_mime (.goodBytes raw im) = .ok (.goodBytes outRaw outIm, "image/png") ∧
      outIm.format = "PNG" ∧ outIm.width = im.width ∧ outIm.height = im.height ∧
      pngModeHasAlpha outIm.mode = (im.mode = "RGBA" || im.mode = "LA") := by
  simp only [ensure_image_and_mime]
  rw [if_neg (by simp [h1, h2]), if_neg h3]
  by_cases hm : im.mode = "RGBA" ∨ im.mode = "LA"
  · rw [if_pos hm]
    exact ⟨_, _, rfl, rfl, rfl, rfl, by simp [pilSavePNGReload, pngModeHasAlpha]⟩
  · rw [if_neg hm]
    push_neg at hm
    exact ⟨_, _, rfl, rfl, rfl, rfl, by
      simp [pilSavePNGReload, pilConvertRGB, pngModeHasAlpha, hm.1, hm.2]⟩

/-- Witness for the amended C7 on a concrete WEBP input with an alpha
channel. -/
theorem C7_amended_witness :
    ∃ outRaw outIm,
      ensure_image_and_mime
          (.goodBytes [82, 73]
            { format := "WEBP", mode := "RGBA", width := 5, height := 4,
              transparencyInfo := false }) =
        .ok (.goodBytes outRaw outIm, "image/png") ∧
      outIm.format = "PNG" ∧ outIm.width = 5 ∧ outIm.height = 4 ∧
      pngModeHasAlpha outIm.mode = (("RGBA" : String) = "RGBA" || ("RGBA" : String) = "LA") :=
  C7_amended_reencode [82, 73]
    { format := "WEBP", mode := "RGBA", width := 5, height := 4, transparencyInfo := false }
    (by decide) (by decide) (by decide)

/-! ### Orchestrator claims -/

/-- Claim C1: for every k in 0..3, if the remote API returns an
HTTP-400 failure for the first k attempts and a response carrying a
valid inline image for attempt k, then `gemini_edit` returns that
image's base64-decoded bytes and performs exactly k+1 requests. -/
theorem C1_ladder_success (api : Nat → ApiOutcome) (prompt : String)
    (raw : List Nat) (im : PILImage) (k : Nat) (hk : k < 4)
    (h400 : ∀ j, j < k → ∃ b, api j = ApiOutcome.httpError 400 b)
    (r : ApiResponse) (s : String)
    (hok : api k = ApiOutcome.ok r) (hx : extractImage r = some s) :
    (geminiEdit api prompt (.goodBytes raw im)).1 = .ok (b64decode s) ∧
    (geminiEdit api prompt (.goodBytes raw im)).2.length = k + 1 := by
  obtain ⟨out, mime, hE⟩ := ensure_goodBytes_ok raw im
  simp only [geminiEdit, hE]
  interval_cases k
  · simp [geminiEditCore, attemptStep, hok, hx]
  · obtain ⟨b0, h0⟩ := h400 0 (by omega)
    simp [geminiEditCore, attemptStep, h0, hok, hx]
  · obtain ⟨b0, h0⟩ := h400 0 (by omega)
    obtain ⟨b1, h1⟩ := h400 1 (by omega)
    simp [geminiEditCore, attemptStep, h0, h1, hok, hx]
  · obtain ⟨b0, h0⟩ := h400 0 (by omega)
    obtain ⟨b1, h1⟩ := h400 1 (by omega)
    obtain ⟨b2, h2⟩ := h400 2 (by omega)
    simp [geminiEditCore, attemptStep, finalStep, h0, h1, h2, hok, hx]

/-- A concrete decodable PNG input. -/
def demoIm : PILImage :=
  { format := "PNG", mode := "RGB", width := 2, height := 2, transparencyInfo := false }

/-- A success response whose first part carries inline image data. -/
def respInline : ApiResponse :=
  { candidates := [
      { content :=
          { role := some "model",
            parts := [
              { text := none,
                inline_data := some { mime_type := "image/png", data := "CQk=" } } ] } } ] }

/-- A success response whose parts carry only text, no inline data. -/
def respText : ApiResponse :=
  { candidates := [
      { content :=
          { role := some "model",
            parts := [
              { text := some "I cannot edit that image.",
                inline_data := none } ] } } ] }

/-- Remote API for the C1 witness: HTTP 400 on the first call, a valid
image on the second. -/
def apiLadderC1 : Nat → ApiOutcome :=
  fun j => if j = 0 then .httpError 400 "bad shape" else .ok respInline

/-- Witness for C1 at k = 1. -/
theorem C1_ladder_success_witness :
    apiLadderC1 0 = ApiOutcome.httpError 400 "bad shape" ∧
    apiLadderC1 1 = ApiOutcome.ok respInline ∧
    extractImage respInline = some "CQk=" ∧
    (geminiEdit apiLadderC1 "p" (.goodBytes [1, 2] demoIm)).1 = .ok (b64decode "CQk=") ∧
    (geminiEdit apiLadderC1 "p" (.goodBytes [1, 2] demoIm)).2.length = 2 := by
  refine ⟨rfl, rfl, rfl, ?_, ?_⟩
  · exact (C1_ladder_success apiLadderC1 "p" [1, 2] demoIm 1 (by omega)
      (by intro j hj; interval_cases j; exact ⟨"bad shape", rfl⟩)
      respInline "CQk=" rfl rfl).1
  · exact (C1_ladder_success apiLadderC1 "p" [1, 2] demoIm 1 (by omega)
      (by intro j hj; interval_cases j; exact ⟨"bad shape", rfl⟩)
      respInline "CQk=" rfl rfl).2

/-- Remote API refuting C2 as stated: remediable failures on rungs 0-2,
an HTTP 500 server error on the final rung. -/
def apiServer500 : Nat → ApiOutcome :=
  fun j => if j < 3 then .httpError 400 "b" else .httpError 500 "boom"

/-- Counterexample to claim C2 as stated: on the final ladder attempt a
non-400 failure (an HTTP 500 here) is not surfaced as that error —
`gemini_edit` wraps every `HTTPStatusError` of the fourth attempt,
whatever its status, into the `RuntimeError` "Gemini 400: ..."
diagnostic. -/
theorem C2_cex_final_rung_wraps_500 :
    apiServer500 3 = ApiOutcome.httpError 500 "boom" ∧
    gemini400Msg "boom" = "Gemini 400: boom" ∧
    (geminiEdit apiServer500 "p" (.goodBytes [1, 2] demoIm)).1 =
      .error (.generationError (gemini400Msg "boom")) ∧
    (geminiEdit apiServer500 "p" (.goodBytes [1, 2] demoIm)).1 ≠
      .error (.httpStatusError 500 "boom") := by
  have h0 : apiServer500 0 = ApiOutcome.httpError 400 "b" := rfl
  have h1 : apiServer500 1 = ApiOutcome.httpError 400 "b" := rfl
  have h2 : apiServer500 2 = ApiOutcome.httpError 400 "b" := rfl
  have h3 : apiServer500 3 = ApiOutcome.httpError 500 "boom" := rfl
  obtain ⟨out, mime, hE⟩ := ensure_goodBytes_ok [1, 2] demoIm
  have heq : (geminiEdit apiServer500 "p" (.goodBytes [1, 2] demoIm)).1 =
      .error (.generationError (gemini400Msg "boom")) := by
    simp only [geminiEdit, hE]
    simp [geminiEditCore, attemptStep, finalStep, h0, h1, h2, h3]
  refine ⟨h3, by decide, heq, ?_⟩
  rw [heq]
  simp

/-- Claim C2 as amended: on attempts 0-2, any failure other than HTTP
status 400 aborts the ladder immediately, surfacing that error with no
further request; timeout/network failures do so on every attempt
including the last; but an HTTP status failure other than 400 on the
final attempt, while also issuing no further request, is surfaced as
the GenerationError diagnostic rather than as the original error. -/
theorem C2_amended_nonremediable_aborts (api : Nat → ApiOutcome) (prompt : String)
    (raw : List Nat) (im : PILImage) (i : Nat) (hi : i < 4)
    (h400 : ∀ j, j < i → ∃ b, api j = ApiOutcome.httpError 400 b) :
    (∀ e, api i = ApiOutcome.netError e →
      (geminiEdit api prompt (.goodBytes raw im)).1 = .error (.networkError e) ∧
      (geminiEdit api prompt (.goodBytes raw im)).2.length = i + 1) ∧
    (∀ st b, api i = ApiOutcome.httpError st b → st ≠ 400 →
      (geminiEdit api prompt (.goodBytes raw im)).2.length = i + 1 ∧
      (i < 3 → (geminiEdit api prompt (.goodBytes raw im)).1 =
        .error (.httpStatusError st b)) ∧
      (i = 3 → (geminiEdit api prompt (.goodBytes raw im)).1 =
        .error (.generationError (gemini400Msg b)))) := by
  obtain ⟨out, mime, hE⟩ := ensure_goodBytes_ok raw im
  simp only [geminiEdit, hE]
  interval_cases i
  · constructor
    · intro e he
      simp [geminiEditCore, attemptStep, he]
    · intro st b hb hst
      refine ⟨?_, fun _ => ?_, by omega⟩ <;>
        simp [geminiEditCore, attemptStep, hb, hst]
  · obtain ⟨b0, h0⟩ := h400 0 (by omega)
    constructor
    · intro e he
      simp [geminiEditCore, attemptStep, h0, he]
    · intro st b hb hst
      refine ⟨?_, fun _ => ?_, by omega⟩ <;>
        simp [geminiEditCore, attemptStep, h0, hb, hst]
  · obtain ⟨b0, h0⟩ := h400 0 (by omega)
    obtain ⟨b1, h1⟩ := h400 1 (by omega)
    constructor
    · intro e he
      simp [geminiEditCore, attemptStep, h0, h1, he]
    · intro st b hb hst
      refine ⟨?_, fun _ => ?_, by omega⟩ <;>
        simp [geminiEditCore, attemptStep, h0, h1, hb, hst]
  · obtain ⟨b0, h0⟩ := h400 0 (by omega)
    obtain ⟨b1, h1⟩ := h400 1 (by omega)
    obtain ⟨b2, h2⟩ := h400 2 (by omega)
    constructor
    · intro e he
      simp [geminiEditCore, attemptStep, finalStep, h0, h1, h2, he]
    · intro st b hb hst
      refine ⟨?_, by omega, fun _ => ?_⟩ <;>
        simp [geminiEditCore, attemptStep, finalStep, h0, h1, h2, hb]

/-- Remote API for the C2 witness: HTTP 400 on the first call, a
network timeout on the second. -/
def apiTimeoutAt1 : Nat → ApiOutcome :=
  fun j => if j = 0 then .httpError 400 "b" else .netError "ReadTimeout"

/-- Witness for the amended C2 at i = 1 with a timeout. -/
theorem C2_amended_witness :
    apiTimeoutAt1 1 = ApiOutcome.netError "ReadTimeout" ∧
    (geminiEdit apiTimeoutAt1 "p" (.goodBytes [1, 2] demoIm)).1 =
      .error (.networkError "ReadTimeout") ∧
    (geminiEdit apiTimeoutAt1 "p" (.goodBytes [1, 2] demoIm)).2.length = 2 := by
  refine ⟨rfl, ?_, ?_⟩
  · exact (((C2_amended_nonremediable_aborts apiTimeoutAt1 "p" [1, 2] demoIm 1 (by omega)
      (by intro j hj; interval_cases j; exact ⟨"b", rfl⟩)).1) "ReadTimeout" rfl).1
  · exact (((C2_amended_nonremediable_aborts apiTimeoutAt1 "p" [1, 2] demoIm 1 (by omega)
      (by intro j hj; interval_cases j; exact ⟨"b", rfl⟩)).1) "ReadTimeout" rfl).2

/-- Remote API refuting C3 as stated: the very first attempt succeeds
at the request level but the model answers with text only. -/
def apiTextOnly : Nat → ApiOutcome :=
  fun _ => .ok respText

/-- Counterexample to claim C3 as stated: when a successful response
carries no inline image data, `gemini_edit` does not continue to the
next variant — the `KeyError` raised by the extraction expression is
not caught by the `except httpx.HTTPStatusError` clause, so the call
aborts after exactly one request. -/
theorem C3_cex_text_response_aborts :
    extractImage respText = none ∧
    (geminiEdit apiTextOnly "p" (.goodBytes [1, 2] demoIm)).1 = .error .extractError ∧
    (geminiEdit apiTextOnly "p" (.goodBytes [1, 2] demoIm)).2.length = 1 :=
  ⟨rfl, rfl, rfl⟩

/-- Claim C3 as amended: an attempt whose remote call succeeds but
whose response carries no inline image data in its first part makes
`gemini_edit` abort immediately with the uncaught extraction error — it
never returns a false success, and it does not continue to the next
variant (exactly i+1 requests are performed). -/
theorem C3_amended_no_image_aborts (api : Nat → ApiOutcome) (prompt : String)
    (raw : List Nat) (im : PILImage) (i : Nat) (hi : i < 4)
    (h400 : ∀ j, j < i → ∃ b, api j = ApiOutcome.httpError 400 b)
    (r : ApiResponse) (hok : api i = ApiOutcome.ok r) (hx : extractImage r = none) :
    (geminiEdit api prompt (.goodBytes raw im)).1 = .error .extractError ∧
    (geminiEdit api prompt (.goodBytes raw im)).2.length = i + 1 := by
  obtain ⟨out, mime, hE⟩ := ensure_goodBytes_ok raw im
  simp only [geminiEdit, hE]
  interval_cases i
  · simp [geminiEditCore, attemptStep, hok, hx]
  · obtain ⟨b0, h0⟩ := h400 0 (by omega)
    simp [geminiEditCore, attemptStep, h0, hok, hx]
  · obtain ⟨b0, h0⟩ := h400 0 (by omega)
    obtain ⟨b1, h1⟩ := h400 1 (by omega)
    simp [geminiEditCore, attemptStep, h0, h1, hok, hx]
  · obtain ⟨b0, h0⟩ := h400 0 (by omega)
    obtain ⟨b1, h1⟩ := h400 1 (by omega)
    obtain ⟨b2, h2⟩ := h400 2 (by omega)
    simp [geminiEditCore, attemptStep, finalStep, h0, h1, h2, hok, hx]

/-- Witness for the amended C3 at i = 0. -/
theorem C3_amended_witness :
    apiTextOnly 0 = ApiOutcome.ok respText ∧
    (geminiEdit apiTextOnly "q" (.goodBytes [3] demoIm)).1 = .error .extractError ∧
    (geminiEdit apiTextOnly "q" (.goodBytes [3] demoIm)).2.length = 1 := by
  refine ⟨rfl, ?_, ?_⟩
  · exact (C3_amended_no_image_aborts apiTextOnly "q" [3] demoIm 0 (by omega)
      (by intro j hj; omega) respText rfl rfl).1
  · exact (C3_amended_no_image_aborts apiTextOnly "q" [3] demoIm 0 (by omega)
      (by intro j hj; omega) respText rfl rfl).2

/-- Claim C4: if every ladder attempt fails with HTTP 400, `gemini_edit`
fails with the GenerationError whose message is the fixed prefix plus a
non-empty diagnostic — the last attempt's response body truncated to
400 characters, or "Bad Request" when that truncation is empty — after
exactly four requests. -/
theorem C4_exhausted_generation_error (api : Nat → ApiOutcome) (prompt : String)
    (raw : List Nat) (im : PILImage) (b0 b1 b2 b3 : String)
    (h0 : api 0 = ApiOutcome.httpError 400 b0)
    (h1 : api 1 = ApiOutcome.httpError 400 b1)
    (h2 : api 2 = ApiOutcome.httpError 400 b2)
    (h3 : api 3 = ApiOutcome.httpError 400 b3) :
    (geminiEdit api prompt (.goodBytes raw im)).1 =
      .error (.generationError (gemini400Msg b3)) ∧
    (geminiEdit api prompt (.goodBytes raw im)).2.length = 4 ∧
    gemini400Msg b3 = "Gemini 400: " ++ gemini400Diag b3 ∧
    gemini400Diag b3 ≠ "" ∧
    (gemini400Diag b3 = "Bad Request" ∨ gemini400Diag b3 = strTake b3 400) := by
  obtain ⟨out, mime, hE⟩ := ensure_goodBytes_ok raw im
  refine ⟨?_, ?_, rfl, ?_, ?_⟩
  · simp only [geminiEdit, hE]
    simp [geminiEditCore, attemptStep, finalStep, h0, h1, h2, h3]
  · simp only [geminiEdit, hE]
    simp [geminiEditCore, attemptStep, h0, h1, h2]
  · unfold gemini400Diag
    split_ifs with hbody
    · decide
    · exact hbody
  · unfold gemini400Diag
    split_ifs <;> simp

/-- Remote API for the C4 witness: HTTP 400 on every rung, the last
with body "boom". -/
def apiAll400 : Nat → ApiOutcome :=
  fun j => if j = 3 then .httpError 400 "boom" else .httpError 400 "b"

/-- Witness for C4. -/
theorem C4_exhausted_witness :
    apiAll400 3 = ApiOutcome.httpError 400 "boom" ∧
    (geminiEdit apiAll400 "p" (.goodBytes [1, 2] demoIm)).1 =
      .error (.generationError (gemini400Msg "boom")) ∧
    (geminiEdit apiAll400 "p" (.goodBytes [1, 2] demoIm)).2.length = 4 ∧
    gemini400Diag "boom" ≠ "" := by
  refine ⟨rfl, ?_, ?_, ?_⟩
  · exact (C4_exhausted_generation_error apiAll400 "p" [1, 2] demoIm
      "b" "b" "b" "boom" rfl rfl rfl rfl).1
  · exact (C4_exhausted_generation_error apiAll400 "p" [1, 2] demoIm
      "b" "b" "b" "boom" rfl rfl rfl rfl).2.1
  · exact (C4_exhausted_generation_error apiAll400 "p" [1, 2] demoIm
      "b" "b" "b" "boom" rfl rfl rfl rfl).2.2.2.1

/-- Claim C9: bytes that cannot be parsed as any image make
`gemini_edit` fail with the decode error before any request is made,
and the `on_text` handler boundary surfaces it as a user-visible error
message rather than swallowing it. -/
theorem C9_decode_error_surfaced (api : Nat → ApiOutcome) (prompt : String)
    (raw : List Nat) :
    ensure_image_and_mime (.badBytes raw) = .error .unidentifiedImage ∧
    geminiEdit api prompt (.badBytes raw) = (.error .decodeError, []) ∧
    handleEditResult (geminiEdit api prompt (.badBytes raw)).1 =
      .errorMessage ("Ошибка: " ++ editErrorText .decodeError) := by
  refine ⟨rfl, ?_, ?_⟩ <;> simp [geminiEdit, ensure_image_and_mime, handleEditResult]

/-- Claim C10: whenever the first three attempts fail remediably, the
fourth attempt targets the fallback model with exactly the first
attempt's body — contents without a role tag and with
`generationConfig.responseMimeType = "image/png"`, which differs from
the most recently tried `payload3` — and all four requests embed the
one base64 encoding of the normalized image bytes. -/
theorem C10_final_attempt_reuses_payload1 (api : Nat → ApiOutcome) (prompt : String)
    (raw : List Nat) (im : PILImage) (b0 b1 b2 : String)
    (h0 : api 0 = ApiOutcome.httpError 400 b0)
    (h1 : api 1 = ApiOutcome.httpError 400 b1)
    (h2 : api 2 = ApiOutcome.httpError 400 b2)
    (out : ImageBytes) (mime : String)
    (hE : ensure_image_and_mime (.goodBytes raw im) = .ok (out, mime)) :
    (geminiEdit api prompt (.goodBytes raw im)).2 =
      [{ model := PRIMARY_MODEL, payload := payload1 prompt mime (b64encode out.raw) },
       { model := PRIMARY_MODEL, payload := payload2 prompt mime (b64encode out.raw) },
       { model := PRIMARY_MODEL, payload := payload3 prompt mime (b64encode out.raw) },
       { model := FALLBACK_MODEL, payload := payload1 prompt mime (b64encode out.raw) }] ∧
    (payload1 prompt mime (b64encode out.raw)).contents.map JContent.role = [none] ∧
    (payload1 prompt mime (b64encode out.raw)).generationConfig =
      some { responseMimeType := "image/png" } ∧
    payload1 prompt mime (b64encode out.raw) ≠ payload3 prompt mime (b64encode out.raw) ∧
    ∀ rq ∈ (geminiEdit api prompt (.goodBytes raw im)).2,
      (rq.payload.contents.map contentInlines).flatten =
        [{ mime_type := mime, data := b64encode out.raw }] := by
  have htr : (geminiEdit api prompt (.goodBytes raw im)).2 =
      [{ model := PRIMARY_MODEL, payload := payload1 prompt mime (b64encode out.raw) },
       { model := PRIMARY_MODEL, payload := payload2 prompt mime (b64encode out.raw) },
       { model := PRIMARY_MODEL, payload := payload3 prompt mime (b64encode out.raw) },
       { model := FALLBACK_MODEL, payload := payload1 prompt mime (b64encode out.raw) }] := by
    simp only [geminiEdit, hE]
    simp [geminiEditCore, attemptStep, h0, h1, h2]
  refine ⟨htr, by simp [payload1, parts], rfl, ?_, ?_⟩
  · intro hcontra
    have := congrArg Payload.generationConfig hcontra
    simp [payload1, payload3] at this
  · intro rq hrq
    rw [htr] at hrq
    simp only [List.mem_cons, List.not_mem_nil, or_false] at hrq
    rcases hrq with rfl | rfl | rfl | rfl <;>
      simp [payload1, payload2, payload3, parts, parts_with_role, contentInlines]

/-- Witness for C10 using a concrete all-400 remote API and a concrete
PNG input that normalization passes through. -/
theorem C10_final_attempt_witness :
    ensure_image_and_mime (.goodBytes [1, 2] demoIm) =
      .ok (.goodBytes [1, 2] demoIm, "image/png") ∧
    (geminiEdit apiAll400 "p" (.goodBytes [1, 2] demoIm)).2 =
      [{ model := PRIMARY_MODEL,
         payload := payload1 "p" "image/png" (b64encode (ImageBytes.goodBytes [1, 2] demoIm).raw) },
       { model := PRIMARY_MODEL,
         payload := payload2 "p" "image/png" (b64encode (ImageBytes.goodBytes [1, 2] demoIm).raw) },
       { model := PRIMARY_MODEL,
         payload := payload3 "p" "image/png" (b64encode (ImageBytes.goodBytes [1, 2] demoIm).raw) },
       { model := FALLBACK_MODEL,
         payload := payload1 "p" "image/png" (b64encode (ImageBytes.goodBytes [1, 2] demoIm).raw) }] ∧
    payload1 "p" "image/png" (b64encode (ImageBytes.goodBytes [1, 2] demoIm).raw) ≠
      payload3 "p" "image/png" (b64encode (ImageBytes.goodBytes [1, 2] demoIm).raw) := by
  refine ⟨by decide, ?_, ?_⟩
  · exact (C10_final_attempt_reuses_payload1 apiAll400 "p" [1, 2] demoIm
      "b" "b" "b" rfl rfl rfl (ImageBytes.goodBytes [1, 2] demoIm) "image/png" (by decide)).1
  · exact (C10_final_attempt_reuses_payload1 apiAll400 "p" [1, 2] demoIm
      "b" "b" "b" rfl rfl rfl (ImageBytes.goodBytes [1, 2] demoIm) "image/png" (by decide)).2.2.2.1

end Banana
